import Mathlib

/-!
Verification of the Rust-Meeting workflow layer.

This file gives a shallow embedding of the workflow and consistency layer of
the Rust-Meeting server (src/routes/user.rs, lecture.rs, invitation.rs,
la.rs, feedback.rs over the MongoDB collections declared in src/db.rs) and
proves properties of the embedded operations.

Modelling conventions:
- a MongoDB collection is a list of its documents in natural (insertion)
  order; `find_one` is `List.find?`, `find` with a filter is `List.filter`,
  `update_one` updates the first matching document (`updateFirst`),
  `update_one` with `upsert(true)` is `upsertOne`, `delete_one` is
  `deleteFirst`;
- collections whose documents always have the same shape in this codebase
  (lecture, invitation, la, feedback) are lists of typed records; driver
  generated `_id` values are kept only where some modelled read uses them,
  and user documents are kept as raw key/value documents (`BDoc`) because
  the user handlers manipulate fields dynamically;
- external collaborators (the `chrono` timestamp parser, the `rand` draw
  stream, the `bcrypt` hash) enter as explicit parameters or as minimal
  models of the contract the handlers rely on;
- each handler returns `Except Err α` mirroring the Rust
  `Result<Json<T>, (StatusCode, String)>`; a `panic` (`unwrap` on a missing
  field) is modelled as an internal-error result.
-/

set_option autoImplicit false

/-- External identifiers: MongoDB ObjectIds, carried as the 24-character
lowercase hexadecimal encoding produced by `ObjectId::to_hex`. -/
abbrev Oid := String

/-- Hexadecimal-digit test (case insensitive) used by the ObjectId parser. -/
def isHexChar (c : Char) : Bool :=
  c.isDigit || (decide ('a' ≤ c) && decide (c ≤ 'f')) || (decide ('A' ≤ c) && decide (c ≤ 'F'))

/-- Lowercasing of an upper-case hexadecimal letter (the only letters the
parser admits), used to produce the normalised `to_hex` form. -/
def lowerHex (c : Char) : Char :=
  if decide ('A' ≤ c) && decide (c ≤ 'F') then Char.ofNat (c.toNat + 32) else c

namespace ObjectId

/-- Embedding of `bson::oid::ObjectId::parse_str`: accepts exactly a
24-character hexadecimal string (case insensitive) and normalises it to the
lowercase form that `to_hex` later emits. -/
def parse_str (s : String) : Option Oid :=
  if s.data.length == 24 && s.data.all isHexChar then
    some (String.mk (s.data.map lowerHex))
  else none

end ObjectId

/-- BSON values, restricted to the shapes this codebase stores. -/
inductive BVal where
  | str (s : String)
  | int (n : Int)
  | bool (b : Bool)
  | oid (o : Oid)
  | null
  deriving DecidableEq, Repr

/-- A BSON document: ordered key/value pairs (`bson::Document`). -/
abbrev BDoc := List (String × BVal)

/-- Field lookup on a document (`Document::get*`). -/
def bGet (d : BDoc) (k : String) : Option BVal :=
  (d.find? (fun e => e.1 == k)).map (fun e => e.2)

/-- Lookup of a string field (`Document::get_str`). -/
def bGetStr (d : BDoc) (k : String) : Option String :=
  match bGet d k with
  | some (.str s) => some s
  | _ => none

/-- Lookup of an ObjectId field (`Document::get_object_id`). -/
def bGetOid (d : BDoc) (k : String) : Option Oid :=
  match bGet d k with
  | some (.oid o) => some o
  | _ => none

/-- Lookup of an i32 field (`Document::get_i32`). -/
def bGetInt (d : BDoc) (k : String) : Option Int :=
  match bGet d k with
  | some (.int n) => some n
  | _ => none

/-- Embedding of `Document::insert`: replace the value of an existing key in
place, else append the pair at the end. -/
def bInsert (k : String) (v : BVal) : BDoc → BDoc
  | [] => [(k, v)]
  | (k', v') :: rest => if k' == k then (k, v) :: rest else (k', v') :: bInsert k v rest

/-- Embedding of `Document::remove`. -/
def bRemove (k : String) (d : BDoc) : BDoc :=
  d.filter (fun e => !(e.1 == k))

/-- Embedding of MongoDB `update_one`: apply `f` to the first document
matching `p` and leave everything else unchanged. -/
def updateFirst {α : Type} (p : α → Bool) (f : α → α) : List α → List α
  | [] => []
  | x :: xs => if p x then f x :: xs else x :: updateFirst p f xs

/-- Embedding of MongoDB `delete_one`: remove the first document matching
`p`; the second component is the reported `deleted_count`. -/
def deleteFirst {α : Type} (p : α → Bool) : List α → List α × Nat
  | [] => ([], 0)
  | x :: xs =>
    if p x then (xs, 1)
    else
      let r := deleteFirst p xs
      (x :: r.1, r.2)

/-- Embedding of MongoDB `update_one` with `upsert(true)`: if some document
matches `p`, update the first such document with `f`; otherwise insert `new`
(the document assembled from the filter's equality keys, `$set` and
`$setOnInsert`). The boolean reports whether a document was matched. -/
def upsertOne {α : Type} (p : α → Bool) (f : α → α) (new : α) (l : List α) :
    List α × Bool :=
  if l.any p then (updateFirst p f l, true) else (l ++ [new], false)

namespace StatusCode

def BAD_REQUEST : Nat := 400

def UNAUTHORIZED : Nat := 401

def NOT_FOUND : Nat := 404

def INTERNAL_SERVER_ERROR : Nat := 500

end StatusCode

/-- An error response: HTTP status code and message, mirroring the Rust
`(StatusCode, String)` error type. -/
abbrev Err := Nat × String

/-- A stored lecture document (collection "lecture", see create_lecture):
`speaker_id` and `organizer_id` are stored as hex strings. -/
structure Lecture where
  id : Oid
  topic : String
  start_time : Int
  duration : Int
  description : String
  speaker_id : Option String
  organizer_id : String
  lecturecode : Nat
  status : Int
  deriving DecidableEq, Repr

/-- A stored invitation document (collection "invitation"):
`lecture_id` and `speaker_id` are stored as ObjectIds. -/
structure Invitation where
  id : Oid
  lecture_id : Oid
  speaker_id : Oid
  status : Int
  deriving DecidableEq, Repr

/-- A stored attendance document (collection "la"). The driver-assigned
`_id` is not tracked: no modelled read uses it. -/
structure LARec where
  lecture_id : Oid
  audience_id : Oid
  is_present : Bool
  joined_at : Int
  deriving DecidableEq, Repr

/-- A stored feedback document (collection "feedback"). The driver-assigned
`_id` is not tracked: no modelled read uses it. -/
structure FeedbackRec where
  lecture_id : Oid
  user_id : Oid
  too_fast : Bool
  too_slow : Bool
  boring : Bool
  bad_question_quality : Bool
  other : String
  created_at : Int
  deriving DecidableEq, Repr

/-- The database `rust_meeting` (src/db.rs): one list per collection. -/
structure DB where
  users : List BDoc
  lectures : List Lecture
  invitations : List Invitation
  la : List LARec
  feedbacks : List FeedbackRec
  discussions : List BDoc
  deriving DecidableEq, Repr

/-! ## User routes (src/routes/user.rs) -/

def isLocalChar (c : Char) : Bool :=
  c.isAlphanum || c == '_' || c == '.' || c == '+' || c == '-'

def isDomainChar (c : Char) : Bool :=
  c.isAlphanum || c == '-'

def isTailChar (c : Char) : Bool :=
  c.isAlphanum || c == '-' || c == '.'

/-- Character-list counterpart of `String.split`: split at every character
satisfying `p`, keeping empty pieces (so the result is always nonempty). -/
def splitChars (p : Char → Bool) : List Char → List (List Char)
  | [] => [[]]
  | c :: cs =>
    let r := splitChars p cs
    if p c then [] :: r
    else
      match r with
      | [] => [[c]]
      | h :: t => (c :: h) :: t

/-- Embedding of `validate_email`: full-match semantics of the anchored
regular expression over ASCII classes. None of the three character classes
contains the at sign, so a match splits the string at its unique at sign,
and the middle class contains no dot, so the domain part splits at the
first dot of the remainder. -/
def validate_email (s : String) : Bool :=
  match splitChars (fun c => c == '@') s.data with
  | [lp, rest] =>
    (!lp.isEmpty) && lp.all isLocalChar &&
      (match splitChars (fun c => c == '.') rest with
       | dom :: tail =>
         (!dom.isEmpty) && dom.all isDomainChar && (!tail.isEmpty) &&
           (let t := List.intercalate ['.'] tail
            (!t.isEmpty) && t.all isTailChar)
       | [] => false)
  | _ => false

/-- Model of the external `bcrypt::hash` collaborator: an injective tagging
of the plaintext, capturing the contract the handlers rely on (`verify`
accepts exactly the hashed password). -/
def hash_password (password : String) : String :=
  "$bcrypt$" ++ password

/-- Model of the external `bcrypt::verify` collaborator, matching
`hash_password`. -/
def verify_password (plain hashed : String) : Bool :=
  hashed == hash_password plain

structure UserCreate where
  username : String
  email : String
  password : String
  role : Int

/-- Embedding of `register`: email-format check, duplicate username check,
duplicate email check, then insert of the new user document. `newId` is the
ObjectId the driver assigns to the inserted document. Returns the created
username. -/
def register (db : DB) (newId : Oid) (payload : UserCreate) :
    Except Err (String × DB) :=
  if !validate_email payload.email then
    .error (StatusCode.BAD_REQUEST, "Invalid email format")
  else if (db.users.find? (fun d => bGet d "username" == some (.str payload.username))).isSome then
    .error (StatusCode.BAD_REQUEST, "用户名已被使用")
  else if (db.users.find? (fun d => bGet d "email" == some (.str payload.email))).isSome then
    .error (StatusCode.BAD_REQUEST, "邮箱已被注册")
  else
    let hashed := hash_password payload.password
    let user_doc : BDoc :=
      [("_id", .oid newId),
       ("username", .str payload.username),
       ("email", .str payload.email),
       ("password", .str hashed),
       ("role", .int payload.role),
       ("avatar", .str "/static/uploads/ad08e97b84354e6b9720e877072f28c4.png"),
       ("background", .str "/static/uploads/aa486fc11bd94ab3bd9ef02baa48e357.jpg")]
    .ok (payload.username, { db with users := db.users ++ [user_doc] })

structure LoginUser where
  id : String
  email : String
  username : String
  role : Int
  deriving DecidableEq, Repr

/-- Embedding of `login`: look the user up by email, verify the password
against the stored hash, and return the profile (id, email, username, role;
no password field). The `unwrap` of a missing `_id` is modelled as an
internal error. -/
def login (db : DB) (email password : String) : Except Err LoginUser :=
  match db.users.find? (fun d => bGet d "email" == some (.str email)) with
  | none => .error (StatusCode.UNAUTHORIZED, "Invalid credentials")
  | some user =>
    match bGetStr user "password" with
    | none => .error (StatusCode.INTERNAL_SERVER_ERROR, "密码字段缺失")
    | some hashed =>
      if !verify_password password hashed then
        .error (StatusCode.UNAUTHORIZED, "Invalid credentials")
      else
        match bGetOid user "_id" with
        | none => .error (StatusCode.INTERNAL_SERVER_ERROR, "panic: missing _id")
        | some uid =>
          .ok { id := uid, email := email,
                username := (bGetStr user "username").getD "",
                role := (bGetInt user "role").getD 0 }

/-- Per-document transformation inside `get_all_users`: remove the password,
read the `_id` (the source unwraps, modelled as failure on a missing id),
insert the hex id under "id" and drop "_id". -/
def stripUser (d : BDoc) : Option BDoc :=
  let d1 := bRemove "password" d
  match bGetOid d1 "_id" with
  | none => none
  | some o => some (bRemove "_id" (bInsert "id" (.str o) d1))

/-- Embedding of `get_all_users`: every returned document has its password
removed and its `_id` replaced by the hex string field "id". -/
def get_all_users (db : DB) : Except Err (List BDoc) :=
  match db.users.mapM stripUser with
  | some out => .ok out
  | none => .error (StatusCode.INTERNAL_SERVER_ERROR, "panic: missing _id")

/-! ## Attendance routes (src/routes/la.rs) -/

/-- Response body of `get_present_users`: a 200 response carrying either an
error object or the list of user documents. -/
inductive PresentUsersResp where
  | errorBody (msg : String)
  | users (docs : List BDoc)
  deriving DecidableEq, Repr

/-- Embedding of `get_present_users`: collect the audience ids of the
attendance records of the lecture with `is_present` set, then return the
matching user documents with `_id` replaced by its hex form. The second
component counts the collection calls performed. Note that an undecodable
`lecture_id` yields an `Ok` response with an error body (not a 400 error)
before any storage access, and that the password field is NOT removed from
the returned user documents. -/
def get_present_users (db : DB) (lecture_id : String) : PresentUsersResp × Nat :=
  match ObjectId.parse_str lecture_id with
  | none => (.errorBody "无效的 lecture_id", 0)
  | some loid =>
    let user_ids :=
      (db.la.filter (fun r => r.lecture_id == loid && r.is_present)).map
        (fun r => r.audience_id)
    if user_ids.isEmpty then (.users [], 1)
    else
      let found := db.users.filter (fun d =>
        match bGetOid d "_id" with
        | some o => user_ids.contains o
        | none => false)
      (.users (found.map (fun d =>
        match bGetOid d "_id" with
        | some o => bInsert "_id" (.str o) d
        | none => d)), 2)

structure UpdateIsPresent where
  lecture_id : String
  audience_id : String
  is_present : Bool

structure LAResponse where
  message : String
  la_id : Option Oid
  joined_at : Option Int
  deriving DecidableEq, Repr

/-- Filter of the attendance upsert: equality on the
(lecture_id, audience_id) key pair. -/
def laMatch (L A : Oid) (r : LARec) : Bool :=
  r.lecture_id == L && r.audience_id == A

/-- Embedding of `update_is_present`: one atomic upsert on
(lecture_id, audience_id); a match sets `is_present` and refreshes
`joined_at` to `now`, otherwise a new record with those keys is inserted.
`newId` is the `_id` MongoDB would assign to an upserted document. -/
def update_is_present (db : DB) (now : Int) (newId : Oid) (payload : UpdateIsPresent) :
    Except Err (LAResponse × DB) :=
  match ObjectId.parse_str payload.lecture_id with
  | none => .error (StatusCode.BAD_REQUEST, "无效的 lecture_id")
  | some L =>
    match ObjectId.parse_str payload.audience_id with
    | none => .error (StatusCode.BAD_REQUEST, "无效的 audience_id")
    | some A =>
      let r := upsertOne (laMatch L A)
        (fun a => { a with is_present := payload.is_present, joined_at := now })
        { lecture_id := L, audience_id := A,
          is_present := payload.is_present, joined_at := now }
        db.la
      let message := if r.2 then "is_present 已更新" else "新记录已创建"
      .ok ({ message := message,
             la_id := if r.2 then none else some newId,
             joined_at := some now },
           { db with la := r.1 })

/-! ## Feedback routes (src/routes/feedback.rs) -/

structure FeedbackRequest where
  lecture_id : String
  user_id : String
  too_fast : Option Bool
  too_slow : Option Bool
  boring : Option Bool
  bad_question_quality : Option Bool
  other : Option String

structure FeedbackSubmitResp where
  message : String
  upserted_id : String
  deriving DecidableEq, Repr

/-- Filter of the feedback upsert: equality on the (lecture_id, user_id)
key pair. -/
def fbMatch (L U : Oid) (r : FeedbackRec) : Bool :=
  r.lecture_id == L && r.user_id == U

/-- Embedding of `submit_feedback`: replace-upsert on
(lecture_id, user_id). Every call unconditionally overwrites the four
boolean flags (default false), the free-text field (default empty) and
`created_at`. -/
def submit_feedback (db : DB) (now : Int) (newId : Oid) (payload : FeedbackRequest) :
    Except Err (FeedbackSubmitResp × DB) :=
  match ObjectId.parse_str payload.lecture_id with
  | none => .error (StatusCode.BAD_REQUEST, "Invalid lecture_id")
  | some L =>
    match ObjectId.parse_str payload.user_id with
    | none => .error (StatusCode.BAD_REQUEST, "Invalid user_id")
    | some U =>
      let newRec : FeedbackRec :=
        { lecture_id := L, user_id := U,
          too_fast := payload.too_fast.getD false,
          too_slow := payload.too_slow.getD false,
          boring := payload.boring.getD false,
          bad_question_quality := payload.bad_question_quality.getD false,
          other := payload.other.getD "",
          created_at := now }
      let r := upsertOne (fbMatch L U)
        (fun a =>
          { a with
            too_fast := payload.too_fast.getD false,
            too_slow := payload.too_slow.getD false,
            boring := payload.boring.getD false,
            bad_question_quality := payload.bad_question_quality.getD false,
            other := payload.other.getD "",
            created_at := now })
        newRec db.feedbacks
      .ok ({ message := "反馈提交成功（已覆盖旧记录）",
             upserted_id := if r.2 then "existing" else newId },
           { db with feedbacks := r.1 })

/-! ## Invitation routes (src/routes/invitation.rs) -/

structure InvitationResponse where
  id : String
  lecture_id : String
  speaker_id : String
  status : Int
  deriving DecidableEq, Repr

/-- Embedding of `get_invitation`: parse the id and look the invitation up,
NotFound when absent. -/
def get_invitation (db : DB) (invitation_id : String) :
    Except Err InvitationResponse :=
  match ObjectId.parse_str invitation_id with
  | none => .error (StatusCode.BAD_REQUEST, "Invalid invitation_id format")
  | some oid =>
    match db.invitations.find? (fun i => i.id == oid) with
    | none => .error (StatusCode.NOT_FOUND, "Invitation not found")
    | some d =>
      .ok { id := invitation_id, lecture_id := d.lecture_id,
            speaker_id := d.speaker_id, status := d.status }

/-- Embedding of `accept_invitation`: load the invitation (NotFound when
absent), set its status to 1, then set the referenced lecture's
`speaker_id` to the hex form of the invitation's speaker ObjectId; both
writes are first-match single-document updates and the zero-match outcome
of the lecture write is ignored. -/
def accept_invitation (db : DB) (invitation_id : String) :
    Except Err (InvitationResponse × DB) :=
  match ObjectId.parse_str invitation_id with
  | none => .error (StatusCode.BAD_REQUEST, "Invalid invitation ID")
  | some oid =>
    match db.invitations.find? (fun i => i.id == oid) with
    | none => .error (StatusCode.NOT_FOUND, "Invitation not found")
    | some invite =>
      let invs := updateFirst (fun i => i.id == oid)
        (fun i => { i with status := 1 }) db.invitations
      let lecs := updateFirst (fun l => l.id == invite.lecture_id)
        (fun l => { l with speaker_id := some invite.speaker_id }) db.lectures
      .ok ({ id := invitation_id, lecture_id := invite.lecture_id,
             speaker_id := invite.speaker_id, status := 1 },
           { db with invitations := invs, lectures := lecs })

/-! ## Lecture routes (src/routes/lecture.rs) -/

/-- Character-list counterpart of `String.trim`: drop leading and trailing
whitespace. -/
def trimChars (l : List Char) : List Char :=
  ((l.dropWhile Char.isWhitespace).reverse.dropWhile Char.isWhitespace).reverse

/-- Embedding of `generate_unique_lecturecode`: repeatedly draw a 6-digit
code and probe the registry (`find_one` on "lecturecode") until the draw
does not collide. `codes` are the lecturecodes present in the registry and
`draws` is the finite observed prefix of the random stream, each draw
normalised into [100000, 999999] as `gen_range(100000..=999999)` guarantees;
`none` means the unbounded source loop has not terminated within the
observed draws. Returns the accepted code and the unconsumed draws. -/
def generate_unique_lecturecode (codes : List Nat) : List Nat → Option (Nat × List Nat)
  | [] => none
  | d :: ds =>
    let code := 100000 + d % 900000
    if code ∈ codes then generate_unique_lecturecode codes ds
    else some (code, ds)

structure LectureCreate where
  topic : String
  start_time : String
  duration : Int
  description : Option String
  speaker_id : Option String
  organizer_id : String
  status : Int

/-- Embedding of `create_lecture`. `parseTime` models the external
`chrono::DateTime::parse_from_rfc3339` collaborator composed with
`timestamp_millis`. A blank or whitespace `speaker_id` is treated as
absent, and a non-blank undecodable one is silently dropped by
`ObjectId::parse_str(..).ok()`; an undecodable `organizer_id` is rejected.
The unconsumed draws are returned, so `rest = draws` states that no
registry probe was performed. -/
def create_lecture (parseTime : String → Option Int) (db : DB) (newId : Oid)
    (draws : List Nat) (payload : LectureCreate) :
    Option (Except Err (Lecture × DB) × List Nat) :=
  match parseTime payload.start_time with
  | none => some (.error (StatusCode.BAD_REQUEST, "start_time 无效"), draws)
  | some start_ms =>
    let speaker_id :=
      (payload.speaker_id.bind (fun s =>
        let t := trimChars s.data
        if t.isEmpty then none else some (String.mk t))).bind
        (fun s => ObjectId.parse_str s)
    match ObjectId.parse_str payload.organizer_id with
    | none => some (.error (StatusCode.BAD_REQUEST, "organizer_id 无效"), draws)
    | some organizer_id =>
      match generate_unique_lecturecode (db.lectures.map (fun l => l.lecturecode)) draws with
      | none => none
      | some (code, rest) =>
        let lec : Lecture :=
          { id := newId, topic := payload.topic, start_time := start_ms,
            duration := payload.duration,
            description := payload.description.getD "",
            speaker_id := speaker_id, organizer_id := organizer_id,
            lecturecode := code, status := payload.status }
        some (.ok (lec, { db with lectures := db.lectures ++ [lec] }), rest)

/-- Sequential composition of `create_lecture` calls threading the store and
the draw stream: returns the lectures created (failed creations create
nothing; an exhausted draw stream stops the run). -/
def runCreates (parseTime : String → Option Int) :
    DB → List (Oid × LectureCreate) → List Nat → List Lecture × DB
  | db, [], _ => ([], db)
  | db, (nid, p) :: reqs, draws =>
    match create_lecture parseTime db nid draws p with
    | some (.ok (lec, db'), rest) =>
      let r := runCreates parseTime db' reqs rest
      (lec :: r.1, r.2)
    | some (.error _, rest) => runCreates parseTime db reqs rest
    | none => ([], db)

/-- Embedding of `delete_lecture`: parse the id, delete the first matching
lecture document, NotFound when nothing was deleted. Only the "lecture"
collection is touched. -/
def delete_lecture (db : DB) (lecture_id : String) : Except Err (String × DB) :=
  match ObjectId.parse_str lecture_id with
  | none => .error (StatusCode.BAD_REQUEST, "无效的 lecture_id")
  | some oid =>
    let r := deleteFirst (fun l => l.id == oid) db.lectures
    if r.2 == 0 then .error (StatusCode.NOT_FOUND, "Lecture not found")
    else .ok ("Lecture with ID " ++ lecture_id ++ " has been deleted",
              { db with lectures := r.1 })

deriving instance DecidableEq for Except

/-! ## Concrete sample stores used in evaluations and witnesses -/

def emptyDB : DB :=
  { users := [], lectures := [], invitations := [], la := [], feedbacks := [],
    discussions := [] }

/-- Store with one present attendance for lecture aaaaaaaaaaaaaaaaaaaaaaaa by
user bbbbbbbbbbbbbbbbbbbbbbbb, whose stored document carries a password
hash. -/
def c1db : DB :=
  { emptyDB with
    users := [[("_id", BVal.oid "bbbbbbbbbbbbbbbbbbbbbbbb"),
               ("username", BVal.str "alice"),
               ("password", BVal.str (hash_password "pw"))]],
    la := [{ lecture_id := "aaaaaaaaaaaaaaaaaaaaaaaa",
             audience_id := "bbbbbbbbbbbbbbbbbbbbbbbb",
             is_present := true, joined_at := 0 }] }

def inv0 : Invitation :=
  { id := "111111111111111111111111", lecture_id := "222222222222222222222222",
    speaker_id := "333333333333333333333333", status := 0 }

def lec0 : Lecture :=
  { id := "222222222222222222222222", topic := "t", start_time := 0,
    duration := 1, description := "", speaker_id := none,
    organizer_id := "444444444444444444444444", lecturecode := 100000,
    status := 0 }

/-- Store with one pending invitation and the lecture it references. -/
def dbA : DB := { emptyDB with invitations := [inv0], lectures := [lec0] }

/-- Store with one pending invitation whose referenced lecture is absent. -/
def dbB : DB := { emptyDB with invitations := [inv0] }

/-- The store `dbA` after a successful accept of `inv0`. -/
def dbA1 : DB :=
  { dbA with
    invitations := [{ inv0 with status := 1 }],
    lectures := [{ lec0 with speaker_id := some "333333333333333333333333" }] }

/-- Response of a successful accept of `inv0`. -/
def respA : InvitationResponse :=
  { id := "111111111111111111111111", lecture_id := "222222222222222222222222",
    speaker_id := "333333333333333333333333", status := 1 }

/-! ## List combinator lemmas -/

theorem find?_updateFirst {α : Type} (p : α → Bool) (f : α → α)
    (hf : ∀ a, p a = true → p (f a) = true) (l : List α) :
    (updateFirst p f l).find? p = (l.find? p).map f := by
  induction l with
  | nil => rfl
  | cons x xs ih =>
    cases hpx : p x
    · simp [updateFirst, hpx, List.find?_cons, ih]
    · simp [updateFirst, hpx, List.find?_cons, hf x hpx]

theorem updateFirst_no_match {α : Type} (p : α → Bool) (f : α → α) (l : List α)
    (h : ∀ a ∈ l, p a = false) : updateFirst p f l = l := by
  induction l with
  | nil => rfl
  | cons x xs ih =>
    simp [updateFirst, h x (by simp)]
    exact ih (fun a ha => h a (by simp [ha]))

theorem updateFirst_idem {α : Type} (p : α → Bool) (f : α → α)
    (hf : ∀ a, f (f a) = f a) (hp : ∀ a, p a = true → p (f a) = true) (l : List α) :
    updateFirst p f (updateFirst p f l) = updateFirst p f l := by
  induction l with
  | nil => rfl
  | cons x xs ih =>
    cases hpx : p x
    · simp [updateFirst, hpx, ih]
    · simp [updateFirst, hpx, hp x hpx, hf x]

theorem filter_updateFirst_eq {α : Type} (p : α → Bool) (f : α → α) (new : α) (l : List α)
    (hl : l.any p = true) (hcount : (l.filter p).length ≤ 1)
    (hnew : p new = true) (hf : ∀ a, p a = true → f a = new) :
    (updateFirst p f l).filter p = [new] := by
  induction l with
  | nil => simp at hl
  | cons x xs ih =>
    cases hpx : p x
    · have hany : xs.any p = true := by simpa [hpx] using hl
      have hc : (xs.filter p).length ≤ 1 := by simpa [List.filter_cons, hpx] using hcount
      simpa [updateFirst, hpx, List.filter_cons] using ih hany hc
    · have hfx : f x = new := hf x hpx
      have h2 : (x :: xs).filter p = x :: xs.filter p := by
        rw [List.filter_cons]
        simp [hpx]
      have h1 : (xs.filter p).length = 0 := by
        rw [h2, List.length_cons] at hcount
        omega
      have hnil : xs.filter p = [] := List.length_eq_zero.mp h1
      simp [updateFirst, hpx, List.filter_cons, hfx, hnew, hnil]

theorem filter_upsertOne_eq {α : Type} (p : α → Bool) (f : α → α) (new : α) (l : List α)
    (hcount : (l.filter p).length ≤ 1) (hnew : p new = true)
    (hf : ∀ a, p a = true → f a = new) :
    ((upsertOne p f new l).1.filter p) = [new] := by
  cases hany : l.any p
  · have hnil : l.filter p = [] := by
      rw [List.filter_eq_nil_iff]
      intro a ha hpa
      have : l.any p = true := List.any_eq_true.mpr ⟨a, ha, hpa⟩
      simp [hany] at this
    simp [upsertOne, hany, List.filter_append, hnil, hnew]
  · simpa [upsertOne, hany] using filter_updateFirst_eq p f new l hany hcount hnew hf

theorem deleteFirst_no_match {α : Type} (p : α → Bool) (l : List α)
    (h : ∀ a ∈ l, p a = false) : deleteFirst p l = (l, 0) := by
  induction l with
  | nil => rfl
  | cons x xs ih =>
    have ih' := ih (fun a ha => h a (by simp [ha]))
    simp [deleteFirst, h x (by simp), ih']

theorem find?_append_none {α : Type} (p : α → Bool) (l1 l2 : List α)
    (h : l1.find? p = none) : (l1 ++ l2).find? p = l2.find? p := by
  induction l1 with
  | nil => rfl
  | cons x xs ih =>
    cases hpx : p x
    · rw [List.find?_cons_of_neg _ (by simp [hpx])] at h
      rw [List.cons_append, List.find?_cons_of_neg _ (by simp [hpx])]
      exact ih h
    · rw [List.find?_cons_of_pos _ (by simp [hpx])] at h
      simp at h

theorem generate_unique_lecturecode_spec (codes : List Nat) (draws : List Nat)
    (c : Nat) (rest : List Nat)
    (h : generate_unique_lecturecode codes draws = some (c, rest)) :
    100000 ≤ c ∧ c ≤ 999999 ∧ c ∉ codes := by
  induction draws with
  | nil => simp [generate_unique_lecturecode] at h
  | cons d ds ih =>
    by_cases hm : (100000 + d % 900000) ∈ codes
    · exact ih (by simpa [generate_unique_lecturecode, hm] using h)
    · have h' : c = 100000 + d % 900000 ∧ rest = ds := by
        simpa [generate_unique_lecturecode, hm] using h.symm
      have hlt : d % 900000 < 900000 := Nat.mod_lt d (by norm_num)
      refine ⟨by omega, by omega, ?_⟩
      rw [h'.1]
      exact hm

theorem create_lecture_ok {parseTime : String → Option Int} {db : DB} {newId : Oid}
    {draws : List Nat} {payload : LectureCreate} {lec : Lecture} {db' : DB}
    {rest : List Nat}
    (h : create_lecture parseTime db newId draws payload = some (.ok (lec, db'), rest)) :
    lec.lecturecode ∉ db.lectures.map (fun l => l.lecturecode) ∧
    db'.lectures = db.lectures ++ [lec] ∧
    100000 ≤ lec.lecturecode ∧ lec.lecturecode ≤ 999999 := by
  unfold create_lecture at h
  split at h
  · simp at h
  · split at h
    · simp at h
    · split at h
      · simp at h
      · rename_i start_ms hpt organizer_id horg code rest' hgen
        have hg := generate_unique_lecturecode_spec _ _ _ _ hgen
        simp only [Option.some.injEq, Prod.mk.injEq, Except.ok.injEq] at h
        obtain ⟨⟨hlec, hdb⟩, hrest⟩ := h
        subst hlec
        subst hdb
        refine ⟨by simpa using hg.2.2, by simp, by simpa using hg.1,
          by simpa using hg.2.1⟩

theorem runCreates_fresh (parseTime : String → Option Int)
    (reqs : List (Oid × LectureCreate)) :
    ∀ (db : DB) (draws : List Nat),
      ((runCreates parseTime db reqs draws).1.map (fun l => l.lecturecode)).Nodup ∧
      ∀ lec ∈ (runCreates parseTime db reqs draws).1,
        lec.lecturecode ∉ db.lectures.map (fun l => l.lecturecode) := by
  induction reqs with
  | nil =>
    intro db draws
    simp [runCreates]
  | cons r reqs ih =>
    intro db draws
    obtain ⟨nid, p⟩ := r
    cases hc : create_lecture parseTime db nid draws p with
    | none => simp [runCreates, hc]
    | some res =>
      obtain ⟨exc, rest⟩ := res
      cases exc with
      | error e =>
        simpa [runCreates, hc] using ih db rest
      | ok pr =>
        obtain ⟨lec, db'⟩ := pr
        have hok := create_lecture_ok hc
        obtain ⟨hnd, hmem⟩ := ih db' rest
        have hfresh : ∀ l ∈ (runCreates parseTime db' reqs rest).1,
            l.lecturecode ≠ lec.lecturecode := by
          intro l hl heq
          have := hmem l hl
          rw [hok.2.1] at this
          simp [heq] at this
        constructor
        · simp only [runCreates, hc, List.map_cons]
          refine List.nodup_cons.mpr ⟨?_, hnd⟩
          intro hmm
          obtain ⟨l, hl, hleq⟩ := List.mem_map.mp hmm
          exact hfresh l hl hleq
        · intro l hl
          simp only [runCreates, hc] at hl
          rcases List.mem_cons.mp hl with hEq | hTail
          · rw [hEq]
            exact hok.1
          · have hml := hmem l hTail
            rw [hok.2.1] at hml
            simp only [List.map_append, List.mem_append] at hml
            intro hin
            exact hml (Or.inl hin)

/-! ## Claim theorems -/

/-- C1: the spec claims every read returning user profile data — in
particular `listPresentUsers` — omits the password field. Evaluating the
embedded code on a store with one present attendee: `get_all_users` does
strip the password, but `get_present_users` returns the stored user
document with the password hash still present, contradicting the spec's
"password never returned in reads" and the code's own sibling read
handlers. -/
theorem c1_get_present_users_returns_password :
    get_all_users c1db =
      .ok [[("username", BVal.str "alice"),
            ("id", BVal.str "bbbbbbbbbbbbbbbbbbbbbbbb")]]
    ∧ (get_present_users c1db "aaaaaaaaaaaaaaaaaaaaaaaa").1 =
      .users [[("_id", BVal.str "bbbbbbbbbbbbbbbbbbbbbbbb"),
               ("username", BVal.str "alice"),
               ("password", BVal.str (hash_password "pw"))]] := by
  constructor
  · decide
  · decide

/-- C4: a lecturecode accepted by unique-code allocation lies within
[100000, 999999] and differs from every lecturecode present in the registry
when it is probed; and the codes of the lectures produced by any sequence
of creations are pairwise distinct (each creation inserts its lecture
before the next creation probes the registry). -/
theorem c4_lecturecode_allocation (parseTime : String → Option Int)
    (codes draws : List Nat) (c : Nat) (rest : List Nat)
    (h : generate_unique_lecturecode codes draws = some (c, rest)) :
    (100000 ≤ c ∧ c ≤ 999999 ∧ c ∉ codes)
    ∧ ∀ (db : DB) (reqs : List (Oid × LectureCreate)) (ds : List Nat),
        ((runCreates parseTime db reqs ds).1.map (fun l => l.lecturecode)).Nodup := by
  refine ⟨generate_unique_lecturecode_spec codes draws c rest h, ?_⟩
  intro db reqs ds
  exact (runCreates_fresh parseTime reqs db ds).1

/-- Witness for C4: with 100005 in the registry and draws 5, 6 the
allocator rejects the colliding 100005 and accepts 100006. -/
theorem c4_witness :
    generate_unique_lecturecode [100005] [5, 6] = some (100006, []) ∧
    (100000 ≤ 100006 ∧ 100006 ≤ 999999 ∧ 100006 ∉ [100005]) :=
  ⟨by decide,
   (c4_lecturecode_allocation (fun _ => some 0) [100005] [5, 6] 100006 []
      (by decide)).1⟩

/-- C3: `accept_invitation` fails NotFound when no invitation with the
parsed id exists; when the invitation is found and the call succeeds, the
response reports status 1, the stored invitation's status is 1, and the
referenced lecture (when present) has its speaker_id set to the
invitation's speaker id. -/
theorem c3_accept_invitation (db : DB) (s : String) (oid : Oid)
    (hp : ObjectId.parse_str s = some oid) :
    (db.invitations.find? (fun i => i.id == oid) = none →
      accept_invitation db s = .error (StatusCode.NOT_FOUND, "Invitation not found"))
    ∧ ∀ (inv : Invitation) (resp : InvitationResponse) (db' : DB),
        db.invitations.find? (fun i => i.id == oid) = some inv →
        accept_invitation db s = .ok (resp, db') →
        resp.status = 1
        ∧ db'.invitations.find? (fun i => i.id == oid) = some { inv with status := 1 }
        ∧ db'.lectures.find? (fun l => l.id == inv.lecture_id) =
            (db.lectures.find? (fun l => l.id == inv.lecture_id)).map
              (fun l => { l with speaker_id := some inv.speaker_id }) := by
  constructor
  · intro hnone
    simp [accept_invitation, hp, hnone]
  · intro inv resp db' hfind h
    simp only [accept_invitation, hp, hfind] at h
    simp only [Except.ok.injEq, Prod.mk.injEq] at h
    obtain ⟨hresp, hdb⟩ := h
    subst hresp
    subst hdb
    refine ⟨rfl, ?_, ?_⟩
    · show (updateFirst (fun i => i.id == oid)
          (fun i => { i with status := 1 }) db.invitations).find?
            (fun i => i.id == oid) = some { inv with status := 1 }
      rw [find?_updateFirst (fun (i : Invitation) => i.id == oid)
          (fun (i : Invitation) => { i with status := 1 }) (fun a ha => ha), hfind]
      rfl
    · show (updateFirst (fun l => l.id == inv.lecture_id)
          (fun l => { l with speaker_id := some inv.speaker_id })
          db.lectures).find? (fun l => l.id == inv.lecture_id) =
        (db.lectures.find? (fun l => l.id == inv.lecture_id)).map
          (fun l => { l with speaker_id := some inv.speaker_id })
      exact find?_updateFirst (fun l => l.id == inv.lecture_id)
        (fun l => { l with speaker_id := some inv.speaker_id })
        (fun a ha => ha) db.lectures

/-- Witness for C3 at the one-invitation, one-lecture store `dbA`. -/
theorem c3_witness :
    respA.status = 1
    ∧ dbA1.invitations.find? (fun i => i.id == "111111111111111111111111") =
        some { inv0 with status := 1 }
    ∧ dbA1.lectures.find? (fun l => l.id == inv0.lecture_id) =
        (dbA.lectures.find? (fun l => l.id == inv0.lecture_id)).map
          (fun l => { l with speaker_id := some inv0.speaker_id }) :=
  (c3_accept_invitation dbA "111111111111111111111111" "111111111111111111111111"
      (by decide)).2 inv0 respA dbA1 (by decide) (by decide)

/-- C7: `accept_invitation` is idempotent — a second accept of the same
invitation returns the same response and leaves the store (in particular
the invitation's status and the lecture's speaker_id) unchanged. -/
theorem c7_accept_idempotent (db : DB) (s : String) (resp : InvitationResponse)
    (db' : DB) (h : accept_invitation db s = .ok (resp, db')) :
    accept_invitation db' s = .ok (resp, db') := by
  unfold accept_invitation at h
  split at h
  · simp at h
  · rename_i oid hp
    split at h
    · simp at h
    · rename_i invite hfind
      simp only [Except.ok.injEq, Prod.mk.injEq] at h
      obtain ⟨hresp, hdb⟩ := h
      have hfind' : db'.invitations.find? (fun i => i.id == oid) =
          some { invite with status := 1 } := by
        rw [← hdb]
        show (updateFirst (fun i => i.id == oid)
            (fun i => { i with status := 1 }) db.invitations).find?
              (fun i => i.id == oid) = some { invite with status := 1 }
        rw [find?_updateFirst (fun (i : Invitation) => i.id == oid)
            (fun (i : Invitation) => { i with status := 1 }) (fun a ha => ha), hfind]
        rfl
      have e1 : updateFirst (fun (i : Invitation) => i.id == oid)
          (fun i => { i with status := 1 }) db'.invitations = db'.invitations := by
        rw [← hdb]
        show updateFirst (fun (i : Invitation) => i.id == oid)
            (fun i => { i with status := 1 })
            (updateFirst (fun (i : Invitation) => i.id == oid)
              (fun i => { i with status := 1 }) db.invitations) =
          updateFirst (fun (i : Invitation) => i.id == oid)
            (fun i => { i with status := 1 }) db.invitations
        exact updateFirst_idem (fun (i : Invitation) => i.id == oid)
          (fun i => { i with status := 1 }) (fun a => rfl) (fun a ha => ha)
          db.invitations
      have e2 : updateFirst (fun (l : Lecture) => l.id == invite.lecture_id)
          (fun l => { l with speaker_id := some invite.speaker_id }) db'.lectures =
            db'.lectures := by
        rw [← hdb]
        show updateFirst (fun (l : Lecture) => l.id == invite.lecture_id)
            (fun l => { l with speaker_id := some invite.speaker_id })
            (updateFirst (fun (l : Lecture) => l.id == invite.lecture_id)
              (fun l => { l with speaker_id := some invite.speaker_id }) db.lectures) =
          updateFirst (fun (l : Lecture) => l.id == invite.lecture_id)
            (fun l => { l with speaker_id := some invite.speaker_id }) db.lectures
        exact updateFirst_idem (fun (l : Lecture) => l.id == invite.lecture_id)
          (fun l => { l with speaker_id := some invite.speaker_id })
          (fun a => rfl) (fun a ha => ha) db.lectures
      unfold accept_invitation
      simp only [hp, hfind']
      rw [e1, e2, ← hresp]

/-- Witness for C7: accepting the already-accepted invitation of `dbA1`
returns the same response and store as the first accept. -/
theorem c7_witness :
    accept_invitation dbA1 "111111111111111111111111" = .ok (respA, dbA1) :=
  c7_accept_idempotent dbA "111111111111111111111111" respA dbA1 (by decide)

/-- C10: when the invitation exists but its referenced lecture does not,
`accept_invitation` still succeeds reporting status 1 and sets the stored
invitation's status to 1; the lecture-side write matches zero documents and
is not surfaced as an error. -/
theorem c10_accept_with_missing_lecture (db : DB) (s : String) (oid : Oid)
    (inv : Invitation)
    (hp : ObjectId.parse_str s = some oid)
    (hfind : db.invitations.find? (fun i => i.id == oid) = some inv)
    (hlec : ∀ l ∈ db.lectures, (l.id == inv.lecture_id) = false) :
    ∃ db', accept_invitation db s =
        .ok ({ id := s, lecture_id := inv.lecture_id,
               speaker_id := inv.speaker_id, status := 1 }, db')
      ∧ db'.lectures = db.lectures
      ∧ db'.invitations.find? (fun i => i.id == oid) =
          some { inv with status := 1 } := by
  have hupd : updateFirst (fun (l : Lecture) => l.id == inv.lecture_id)
      (fun l => { l with speaker_id := some inv.speaker_id }) db.lectures =
        db.lectures :=
    updateFirst_no_match _ _ db.lectures hlec
  refine ⟨{ db with
      invitations := updateFirst (fun i => i.id == oid)
        (fun i => { i with status := 1 }) db.invitations,
      lectures := updateFirst (fun l => l.id == inv.lecture_id)
        (fun l => { l with speaker_id := some inv.speaker_id }) db.lectures },
    ?_, ?_, ?_⟩
  · simp only [accept_invitation, hp, hfind]
  · exact hupd
  · show (updateFirst (fun i => i.id == oid)
        (fun i => { i with status := 1 }) db.invitations).find?
          (fun i => i.id == oid) = some { inv with status := 1 }
    rw [find?_updateFirst (fun (i : Invitation) => i.id == oid)
        (fun (i : Invitation) => { i with status := 1 }) (fun a ha => ha), hfind]
    rfl

/-- Witness for C10 at the store `dbB`, whose invitation references an
absent lecture. -/
theorem c10_witness :
    ∃ db', accept_invitation dbB "111111111111111111111111" =
        .ok ({ id := "111111111111111111111111",
               lecture_id := inv0.lecture_id,
               speaker_id := inv0.speaker_id, status := 1 }, db')
      ∧ db'.lectures = dbB.lectures
      ∧ db'.invitations.find? (fun i => i.id == "111111111111111111111111") =
          some { inv0 with status := 1 } :=
  c10_accept_with_missing_lecture dbB "111111111111111111111111"
    "111111111111111111111111" inv0 (by decide) (by decide) (by decide)

/-- C9: `delete_lecture` fails NotFound when no lecture matches the parsed
id; on success it removes only the lecture document — the invitation,
attendance, feedback, discussion and user collections are untouched, every
`get_invitation` call returns exactly what it returned before, and a
previously stored invitation is still retrieved successfully. -/
theorem c9_delete_lecture_no_cascade (db : DB) (lstr : String) (loid : Oid)
    (hp : ObjectId.parse_str lstr = some loid) :
    ((∀ l ∈ db.lectures, (l.id == loid) = false) →
      delete_lecture db lstr = .error (StatusCode.NOT_FOUND, "Lecture not found"))
    ∧ (∀ (msg : String) (db' : DB), delete_lecture db lstr = .ok (msg, db') →
        db'.invitations = db.invitations ∧ db'.la = db.la ∧
        db'.feedbacks = db.feedbacks ∧ db'.discussions = db.discussions ∧
        db'.users = db.users ∧
        (∀ s, get_invitation db' s = get_invitation db s) ∧
        (∀ (s : String) (ioid : Oid) (inv : Invitation),
          ObjectId.parse_str s = some ioid →
          db.invitations.find? (fun i => i.id == ioid) = some inv →
          get_invitation db' s =
            .ok { id := s, lecture_id := inv.lecture_id,
                  speaker_id := inv.speaker_id, status := inv.status })) := by
  constructor
  · intro hno
    have hd := deleteFirst_no_match (fun (l : Lecture) => l.id == loid) db.lectures hno
    simp [delete_lecture, hp, hd]
  · intro msg db' h
    simp only [delete_lecture, hp] at h
    split at h
    · simp at h
    · simp only [Except.ok.injEq, Prod.mk.injEq] at h
      obtain ⟨hmsg, hdb⟩ := h
      subst hdb
      refine ⟨rfl, rfl, rfl, rfl, rfl, ?_, ?_⟩
      · intro s
        rfl
      · intro s ioid inv hps hfind
        simp [get_invitation, hps, hfind]

/-- Witness for C9: after deleting lecture 222222222222222222222222 from
`dbA`, the invitation referencing it is still returned by `get`. -/
theorem c9_witness :
    get_invitation { dbA with lectures := [] } "111111111111111111111111" =
      .ok { id := "111111111111111111111111", lecture_id := inv0.lecture_id,
            speaker_id := inv0.speaker_id, status := inv0.status } :=
  (((c9_delete_lecture_no_cascade dbA "222222222222222222222222"
      "222222222222222222222222" (by decide)).2
      "Lecture with ID 222222222222222222222222 has been deleted"
      { dbA with lectures := [] } (by decide)).2.2.2.2.2.2)
    "111111111111111111111111" "111111111111111111111111" inv0 (by decide) (by decide)

/-- C5: starting from at most one attendance record for the key (L, A),
`update_is_present` with is_present=true followed by is_present=false
leaves exactly one attendance record for (L, A), and it has
is_present=false (with joined_at refreshed by the second call). -/
theorem c5_upsert_presence (db : DB) (lstr astr : String) (L A : Oid)
    (now1 now2 : Int) (id1 id2 : Oid)
    (hL : ObjectId.parse_str lstr = some L)
    (hA : ObjectId.parse_str astr = some A)
    (hcount : (db.la.filter (laMatch L A)).length ≤ 1) :
    ∃ r1 db1 r2 db2,
      update_is_present db now1 id1
        { lecture_id := lstr, audience_id := astr, is_present := true } = .ok (r1, db1)
      ∧ update_is_present db1 now2 id2
        { lecture_id := lstr, audience_id := astr, is_present := false } = .ok (r2, db2)
      ∧ db2.la.filter (laMatch L A) =
          [{ lecture_id := L, audience_id := A, is_present := false,
             joined_at := now2 }] := by
  have hf : ∀ (b : Bool) (n : Int) (a : LARec), laMatch L A a = true →
      (⟨a.lecture_id, a.audience_id, b, n⟩ : LARec) = ⟨L, A, b, n⟩ := by
    intro b n a ha
    simp only [laMatch, Bool.and_eq_true, beq_iff_eq] at ha
    rw [ha.1, ha.2]
  have key1 : ((upsertOne (laMatch L A)
      (fun a => { a with is_present := true, joined_at := now1 })
      ⟨L, A, true, now1⟩ db.la).1).filter (laMatch L A) = [⟨L, A, true, now1⟩] :=
    filter_upsertOne_eq (laMatch L A)
      (fun a => { a with is_present := true, joined_at := now1 })
      ⟨L, A, true, now1⟩ db.la hcount (by simp [laMatch]) (hf true now1)
  have hc1 : (((upsertOne (laMatch L A)
      (fun a => { a with is_present := true, joined_at := now1 })
      ⟨L, A, true, now1⟩ db.la).1).filter (laMatch L A)).length ≤ 1 := by
    rw [key1]
    simp
  have key2 : ((upsertOne (laMatch L A)
      (fun a => { a with is_present := false, joined_at := now2 })
      ⟨L, A, false, now2⟩
      ((upsertOne (laMatch L A)
        (fun a => { a with is_present := true, joined_at := now1 })
        ⟨L, A, true, now1⟩ db.la).1)).1).filter (laMatch L A) =
      [⟨L, A, false, now2⟩] :=
    filter_upsertOne_eq (laMatch L A)
      (fun a => { a with is_present := false, joined_at := now2 })
      ⟨L, A, false, now2⟩ _ hc1 (by simp [laMatch]) (hf false now2)
  let U1res := upsertOne (laMatch L A)
      (fun a => { a with is_present := true, joined_at := now1 })
      ⟨L, A, true, now1⟩ db.la
  let db1e : DB := { db with la := U1res.1 }
  let r1e : LAResponse :=
    { message := if U1res.2 then "is_present 已更新" else "新记录已创建",
      la_id := if U1res.2 then none else some id1,
      joined_at := some now1 }
  let U2res := upsertOne (laMatch L A)
      (fun a => { a with is_present := false, joined_at := now2 })
      ⟨L, A, false, now2⟩ U1res.1
  let db2e : DB := { db1e with la := U2res.1 }
  let r2e : LAResponse :=
    { message := if U2res.2 then "is_present 已更新" else "新记录已创建",
      la_id := if U2res.2 then none else some id2,
      joined_at := some now2 }
  refine ⟨r1e, db1e, r2e, db2e, ?_, ?_, ?_⟩
  · simp only [update_is_present, hL, hA]
  · simp only [update_is_present, hL, hA]
  · exact key2

/-- Witness for C5 on the empty store. -/
theorem c5_witness :
    ∃ r1 db1 r2 db2,
      update_is_present emptyDB 5 "ffffffffffffffffffffffff"
        { lecture_id := "aaaaaaaaaaaaaaaaaaaaaaaa",
          audience_id := "bbbbbbbbbbbbbbbbbbbbbbbb", is_present := true } = .ok (r1, db1)
      ∧ update_is_present db1 9 "eeeeeeeeeeeeeeeeeeeeeeee"
        { lecture_id := "aaaaaaaaaaaaaaaaaaaaaaaa",
          audience_id := "bbbbbbbbbbbbbbbbbbbbbbbb", is_present := false } = .ok (r2, db2)
      ∧ db2.la.filter (laMatch "aaaaaaaaaaaaaaaaaaaaaaaa" "bbbbbbbbbbbbbbbbbbbbbbbb") =
          [{ lecture_id := "aaaaaaaaaaaaaaaaaaaaaaaa",
             audience_id := "bbbbbbbbbbbbbbbbbbbbbbbb", is_present := false,
             joined_at := 9 }] :=
  c5_upsert_presence emptyDB "aaaaaaaaaaaaaaaaaaaaaaaa" "bbbbbbbbbbbbbbbbbbbbbbbb"
    "aaaaaaaaaaaaaaaaaaaaaaaa" "bbbbbbbbbbbbbbbbbbbbbbbb" 5 9
    "ffffffffffffffffffffffff" "eeeeeeeeeeeeeeeeeeeeeeee"
    (by decide) (by decide) (by decide)

/-- C6: starting from at most one feedback record for the key (L, U), two
submissions leave exactly one feedback record for (L, U) whose four boolean
flags and free-text field are those of the second submission (omitted flags
defaulting to false, omitted text to empty, created_at reset); nothing of
the first submission remains. -/
theorem c6_feedback_replace (db : DB) (lstr ustr : String) (L U : Oid)
    (now1 now2 : Int) (id1 id2 : Oid)
    (tf1 ts1 br1 bq1 : Option Bool) (o1 : Option String)
    (tf2 ts2 br2 bq2 : Option Bool) (o2 : Option String)
    (hL : ObjectId.parse_str lstr = some L)
    (hU : ObjectId.parse_str ustr = some U)
    (hcount : (db.feedbacks.filter (fbMatch L U)).length ≤ 1) :
    ∃ r1 db1 r2 db2,
      submit_feedback db now1 id1
        { lecture_id := lstr, user_id := ustr, too_fast := tf1, too_slow := ts1,
          boring := br1, bad_question_quality := bq1, other := o1 } = .ok (r1, db1)
      ∧ submit_feedback db1 now2 id2
        { lecture_id := lstr, user_id := ustr, too_fast := tf2, too_slow := ts2,
          boring := br2, bad_question_quality := bq2, other := o2 } = .ok (r2, db2)
      ∧ db2.feedbacks.filter (fbMatch L U) =
          [{ lecture_id := L, user_id := U,
             too_fast := tf2.getD false, too_slow := ts2.getD false,
             boring := br2.getD false, bad_question_quality := bq2.getD false,
             other := o2.getD "", created_at := now2 }] := by
  have hf : ∀ (tf ts br bq : Bool) (o : String) (n : Int) (a : FeedbackRec),
      fbMatch L U a = true →
      (⟨a.lecture_id, a.user_id, tf, ts, br, bq, o, n⟩ : FeedbackRec) =
        ⟨L, U, tf, ts, br, bq, o, n⟩ := by
    intro tf ts br bq o n a ha
    simp only [fbMatch, Bool.and_eq_true, beq_iff_eq] at ha
    rw [ha.1, ha.2]
  have key1 : ((upsertOne (fbMatch L U)
      (fun a => { a with
        too_fast := tf1.getD false, too_slow := ts1.getD false,
        boring := br1.getD false, bad_question_quality := bq1.getD false,
        other := o1.getD "", created_at := now1 })
      ⟨L, U, tf1.getD false, ts1.getD false, br1.getD false, bq1.getD false,
        o1.getD "", now1⟩ db.feedbacks).1).filter (fbMatch L U) =
      [⟨L, U, tf1.getD false, ts1.getD false, br1.getD false, bq1.getD false,
        o1.getD "", now1⟩] :=
    filter_upsertOne_eq (fbMatch L U) _ _ db.feedbacks hcount
      (by simp [fbMatch])
      (hf (tf1.getD false) (ts1.getD false) (br1.getD false) (bq1.getD false)
        (o1.getD "") now1)
  have hc1 : (((upsertOne (fbMatch L U)
      (fun a => { a with
        too_fast := tf1.getD false, too_slow := ts1.getD false,
        boring := br1.getD false, bad_question_quality := bq1.getD false,
        other := o1.getD "", created_at := now1 })
      ⟨L, U, tf1.getD false, ts1.getD false, br1.getD false, bq1.getD false,
        o1.getD "", now1⟩ db.feedbacks).1).filter (fbMatch L U)).length ≤ 1 := by
    rw [key1]
    simp
  have key2 : ((upsertOne (fbMatch L U)
      (fun a => { a with
        too_fast := tf2.getD false, too_slow := ts2.getD false,
        boring := br2.getD false, bad_question_quality := bq2.getD false,
        other := o2.getD "", created_at := now2 })
      ⟨L, U, tf2.getD false, ts2.getD false, br2.getD false, bq2.getD false,
        o2.getD "", now2⟩
      ((upsertOne (fbMatch L U)
        (fun a => { a with
          too_fast := tf1.getD false, too_slow := ts1.getD false,
          boring := br1.getD false, bad_question_quality := bq1.getD false,
          other := o1.getD "", created_at := now1 })
        ⟨L, U, tf1.getD false, ts1.getD false, br1.getD false, bq1.getD false,
          o1.getD "", now1⟩ db.feedbacks).1)).1).filter (fbMatch L U) =
      [⟨L, U, tf2.getD false, ts2.getD false, br2.getD false, bq2.getD false,
        o2.getD "", now2⟩] :=
    filter_upsertOne_eq (fbMatch L U) _ _ _ hc1
      (by simp [fbMatch])
      (hf (tf2.getD false) (ts2.getD false) (br2.getD false) (bq2.getD false)
        (o2.getD "") now2)
  let V1 := upsertOne (fbMatch L U)
      (fun a => { a with
        too_fast := tf1.getD false, too_slow := ts1.getD false,
        boring := br1.getD false, bad_question_quality := bq1.getD false,
        other := o1.getD "", created_at := now1 })
      ⟨L, U, tf1.getD false, ts1.getD false, br1.getD false, bq1.getD false,
        o1.getD "", now1⟩ db.feedbacks
  let db1e : DB := { db with feedbacks := V1.1 }
  let r1e : FeedbackSubmitResp :=
    { message := "反馈提交成功（已覆盖旧记录）",
      upserted_id := if V1.2 then "existing" else id1 }
  let V2 := upsertOne (fbMatch L U)
      (fun a => { a with
        too_fast := tf2.getD false, too_slow := ts2.getD false,
        boring := br2.getD false, bad_question_quality := bq2.getD false,
        other := o2.getD "", created_at := now2 })
      ⟨L, U, tf2.getD false, ts2.getD false, br2.getD false, bq2.getD false,
        o2.getD "", now2⟩ V1.1
  let db2e : DB := { db1e with feedbacks := V2.1 }
  let r2e : FeedbackSubmitResp :=
    { message := "反馈提交成功（已覆盖旧记录）",
      upserted_id := if V2.2 then "existing" else id2 }
  refine ⟨r1e, db1e, r2e, db2e, ?_, ?_, ?_⟩
  · simp only [submit_feedback, hL, hU]
  · simp only [submit_feedback, hL, hU]
  · exact key2

/-- Witness for C6 on the empty store: the second submission omits three
flags and the free text, which default to false and empty. -/
theorem c6_witness :
    ∃ r1 db1 r2 db2,
      submit_feedback emptyDB 5 "ffffffffffffffffffffffff"
        { lecture_id := "aaaaaaaaaaaaaaaaaaaaaaaa",
          user_id := "bbbbbbbbbbbbbbbbbbbbbbbb",
          too_fast := some true, too_slow := some true, boring := some true,
          bad_question_quality := some true, other := some "slow down" } = .ok (r1, db1)
      ∧ submit_feedback db1 9 "eeeeeeeeeeeeeeeeeeeeeeee"
        { lecture_id := "aaaaaaaaaaaaaaaaaaaaaaaa",
          user_id := "bbbbbbbbbbbbbbbbbbbbbbbb",
          too_fast := some true, too_slow := none, boring := none,
          bad_question_quality := none, other := none } = .ok (r2, db2)
      ∧ db2.feedbacks.filter
          (fbMatch "aaaaaaaaaaaaaaaaaaaaaaaa" "bbbbbbbbbbbbbbbbbbbbbbbb") =
          [{ lecture_id := "aaaaaaaaaaaaaaaaaaaaaaaa",
             user_id := "bbbbbbbbbbbbbbbbbbbbbbbb",
             too_fast := true, too_slow := false, boring := false,
             bad_question_quality := false, other := "", created_at := 9 }] :=
  c6_feedback_replace emptyDB "aaaaaaaaaaaaaaaaaaaaaaaa" "bbbbbbbbbbbbbbbbbbbbbbbb"
    "aaaaaaaaaaaaaaaaaaaaaaaa" "bbbbbbbbbbbbbbbbbbbbbbbb" 5 9
    "ffffffffffffffffffffffff" "eeeeeeeeeeeeeeeeeeeeeeee"
    (some true) (some true) (some true) (some true) (some "slow down")
    (some true) none none none none
    (by decide) (by decide) (by decide)

theorem hash_password_injective {p q : String}
    (h : hash_password p = hash_password q) : p = q := by
  have hd : ("$bcrypt$" ++ p).data = ("$bcrypt$" ++ q).data := by
    unfold hash_password at h
    rw [h]
  simp only [String.data_append] at hd
  have hpq : p.data = q.data := List.append_cancel_left hd
  cases p
  cases q
  simp_all

/-- C8: with a valid, unused email and an unused username, the first
registration succeeds; a second registration with the same email (whatever
its username) fails with one of the two duplicate-rejection errors of the
spec's Conflict class, and one with the same username fails with the
duplicate-username error; logging in with a wrong password fails
Unauthorized. The Conflict class is realised by the code as BAD_REQUEST
with a dedicated duplicate message (transport status mapping is outside
the spec's scope). -/
theorem c8_register_conflict_and_login (db : DB) (u e pw : String) (role : Int)
    (newId : Oid)
    (he : validate_email e = true)
    (hu : db.users.find? (fun d => bGet d "username" == some (.str u)) = none)
    (hm : db.users.find? (fun d => bGet d "email" == some (.str e)) = none) :
    ∃ db',
      register db newId { username := u, email := e, password := pw, role := role } =
        .ok (u, db')
      ∧ (∀ (u2 pw2 : String) (role2 : Int) (id2 : Oid),
          ∃ msg, register db' id2
            { username := u2, email := e, password := pw2, role := role2 } =
              .error (StatusCode.BAD_REQUEST, msg))
      ∧ (∀ (e2 pw2 : String) (role2 : Int) (id2 : Oid), validate_email e2 = true →
          register db' id2 { username := u, email := e2, password := pw2, role := role2 } =
            .error (StatusCode.BAD_REQUEST, "用户名已被使用"))
      ∧ (∀ pw', pw' ≠ pw →
          login db' e pw' = .error (StatusCode.UNAUTHORIZED, "Invalid credentials")) := by
  let newdoc : BDoc :=
    [("_id", .oid newId),
     ("username", .str u),
     ("email", .str e),
     ("password", .str (hash_password pw)),
     ("role", .int role),
     ("avatar", .str "/static/uploads/ad08e97b84354e6b9720e877072f28c4.png"),
     ("background", .str "/static/uploads/aa486fc11bd94ab3bd9ef02baa48e357.jpg")]
  have hnewu : (List.find? (fun d => bGet d "username" == some (.str u)) [newdoc]) =
      some newdoc := by
    simp [newdoc, bGet]
  have hnewe : (List.find? (fun d => bGet d "email" == some (.str e)) [newdoc]) =
      some newdoc := by
    simp [newdoc, bGet]
  have hue : (db.users ++ [newdoc]).find? (fun d => bGet d "username" == some (.str u)) =
      some newdoc := by
    rw [find?_append_none _ _ _ hu, hnewu]
  have hme : (db.users ++ [newdoc]).find? (fun d => bGet d "email" == some (.str e)) =
      some newdoc := by
    rw [find?_append_none _ _ _ hm, hnewe]
  refine ⟨{ db with users := db.users ++ [newdoc] }, ?_, ?_, ?_, ?_⟩
  · simp [register, he, hu, hm, newdoc]
  · intro u2 pw2 role2 id2
    cases hx : (db.users ++ [newdoc]).find?
        (fun d => bGet d "username" == some (.str u2)) with
    | none =>
      refine ⟨"邮箱已被注册", ?_⟩
      simp [register, he, hx, hme]
    | some d =>
      refine ⟨"用户名已被使用", ?_⟩
      simp [register, he, hx]
  · intro e2 pw2 role2 id2 he2
    simp [register, he2, hue]
  · intro pw' hne
    have hbp : bGetStr newdoc "password" = some (hash_password pw) := by
      simp [newdoc, bGetStr, bGet]
    have hv : verify_password pw' (hash_password pw) = false := by
      unfold verify_password
      rw [beq_eq_false_iff_ne]
      intro hcontra
      exact hne (hash_password_injective hcontra).symm
    simp [login, hme, hbp, hv]

/-- Witness for C8 on the empty store with user alice, email a@b.com. -/
theorem c8_witness :
    ∃ db',
      register emptyDB "eeeeeeeeeeeeeeeeeeeeeeee"
        { username := "alice", email := "a@b.com", password := "pw", role := 0 } =
        .ok ("alice", db')
      ∧ (∀ (u2 pw2 : String) (role2 : Int) (id2 : Oid),
          ∃ msg, register db' id2
            { username := u2, email := "a@b.com", password := pw2, role := role2 } =
              .error (StatusCode.BAD_REQUEST, msg))
      ∧ (∀ (e2 pw2 : String) (role2 : Int) (id2 : Oid), validate_email e2 = true →
          register db' id2
            { username := "alice", email := e2, password := pw2, role := role2 } =
              .error (StatusCode.BAD_REQUEST, "用户名已被使用"))
      ∧ (∀ pw', pw' ≠ "pw" →
          login db' "a@b.com" pw' =
            .error (StatusCode.UNAUTHORIZED, "Invalid credentials")) :=
  c8_register_conflict_and_login emptyDB "alice" "a@b.com" "pw" 0
    "eeeeeeeeeeeeeeeeeeeeeeee" (by decide) (by decide) (by decide)
